import Mathlib

/-!
Verification of the model-adapter-and-signature workflow of the
PyCaret-to-model-registry repository.

The repository's own code is the `PyCaretModel` adapter class in
`2_create_and_deploy_custom_model.ipynb`:

  class PyCaretModel(custom_model.CustomModel):
      def __init__(self, context):
          super().__init__(context)
          model_dir = self.context.path("model_file")[:-4]
          self.model = load_model(model_dir, verbose=False)
          self.model.memory = "/tmp/"

      @custom_model.inference_api
      def predict(self, X):
          model_output = predict_model(self.model, data=X)
          res_df = pd.DataFrame({"prediction_label": model_output["prediction_label"],
                                 "prediction_score": model_output["prediction_score"]})
          return res_df

plus one call `model_signature.infer_signature(input_data=test_pd, output_data=output_pd)`.
The vendor routines (`load_model`, `predict_model`, `infer_signature`) are not
part of this repository; they are modelled from the spec where a claim needs
their behaviour, and each such definition is marked in its doc comment.
-/

/-- A scalar cell value of a tabular batch: integer, floating-point
(modelled exactly as a rational), text, or a missing value (NaN/None). -/
inductive Value where
  | int (i : Int)
  | float (q : ℚ)
  | text (s : String)
  | missing
  deriving Repr, DecidableEq

/-- A named column: a homogeneous sequence of scalar values. -/
structure Column where
  name : String
  values : List Value
  deriving Repr, DecidableEq

/-- A TabularBatch: an ordered sequence of named columns (a pandas DataFrame). -/
structure TabularBatch where
  cols : List Column
  deriving Repr, DecidableEq

/-- Row count of a batch: the length of its first column (0 for no columns). -/
def TabularBatch.nrows (b : TabularBatch) : Nat :=
  match b.cols with
  | [] => 0
  | c :: _ => c.values.length

/-- Row-alignment invariant: every column has the shared row count. -/
def TabularBatch.aligned (b : TabularBatch) : Prop :=
  ∀ c ∈ b.cols, c.values.length = b.nrows

instance (b : TabularBatch) : Decidable b.aligned :=
  inferInstanceAs (Decidable (∀ c ∈ b.cols, c.values.length = b.nrows))

/-- Row `i` of a batch, as the list of the columns' `i`-th values. -/
def TabularBatch.row (b : TabularBatch) (i : Nat) : List Value :=
  b.cols.map (fun c => c.values.getD i Value.missing)

/-- All rows of a batch, in order. -/
def TabularBatch.rows (b : TabularBatch) : List (List Value) :=
  (List.range b.nrows).map b.row

/-- Column lookup by name, as pandas `df[name]`: the first column with that
name (the empty column if absent; in every use below the name is present). -/
def TabularBatch.getCol (b : TabularBatch) (nm : String) : List Value :=
  match b.cols.find? (fun c => c.name == nm) with
  | some c => c.values
  | none => []

/-- The Python slice `s[:-4]`: all characters of `s` but the last four;
total, giving the empty string when `s` has at most four characters. -/
def pySliceToNeg4 (s : String) : String :=
  String.mk (s.data.take (s.data.length - 4))

/-- Modelled from the spec: the loaded ModelArtifact (what PyCaret's
`load_model` returns), vendor code not in this repository. It carries one
mutable configuration field `memory` (the cache directory the adapter
patches) and an opaque per-row scoring routine producing a text label, a
confidence score in [0,1], and possibly further output columns
(per-class probability breakdowns), which are named differently from the
two prediction columns. -/
structure Model where
  memory : String
  label : List Value → String
  score : List Value → ℚ
  extra : TabularBatch → List Column
  score_mem : ∀ r, 0 ≤ score r ∧ score r ≤ 1
  extra_names : ∀ X c, c ∈ extra X →
    c.name ≠ "prediction_label" ∧ c.name ≠ "prediction_score"

/-- A serialized blob on disk: either a valid serialized model artifact or
content that does not deserialize. -/
inductive Blob where
  | modelBlob (m : Model)
  | garbage (content : String)

/-- The filesystem the artifact is read from: a map from paths to blobs. -/
structure FileSystem where
  files : List (String × Blob)

/-- Errors of adapter construction, named as in the spec's error taxonomy. -/
inductive ConstructError where
  | ArtifactNotFound
  | ArtifactLoadError
  deriving Repr, DecidableEq

/-- The ModelContext handed to the adapter: the artifact map from logical
keys to filesystem paths (`custom_model.ModelContext(artifacts=...)`). -/
structure ModelContext where
  artifacts : List (String × String)

/-- `self.context.path(key)`: the resolved filesystem path of an artifact
key (the empty path when the key is absent; in every use below it is
present). -/
def ModelContext.path (ctx : ModelContext) (key : String) : String :=
  (ctx.artifacts.lookup key).getD ""

/-- Modelled from the spec: PyCaret's `load_model`, vendor code not in this
repository. Given the artifact name without its `.pkl` suffix it reads the
`.pkl` file at that name (failing when the file does not exist) and
deserializes it (failing when the blob is not a valid serialized artifact). -/
def load_model (fs : FileSystem) (model_dir : String) : Except ConstructError Model :=
  match fs.files.lookup (model_dir ++ ".pkl") with
  | none => .error .ArtifactNotFound
  | some (.garbage _) => .error .ArtifactLoadError
  | some (.modelBlob m) => .ok m

/-- The scratch directory the adapter patches into the artifact. -/
def tmpDir : String := "/tmp/"

/-- The artifact locator of `PyCaretModel.__init__`:
`model_dir = self.context.path("model_file")[:-4]`. -/
def resolveModelDir (ctx : ModelContext) : String :=
  pySliceToNeg4 (ctx.path "model_file")

/-- The adapter: a constructed `PyCaretModel` instance owning its loaded
model artifact. -/
structure PyCaretModel where
  model : Model

/-- `PyCaretModel.__init__`: resolve the artifact path with the `.pkl`
suffix stripped, load the model, then set `self.model.memory = "/tmp/"`. -/
def PyCaretModel.construct (fs : FileSystem) (context : ModelContext) :
    Except ConstructError PyCaretModel :=
  match load_model fs (resolveModelDir context) with
  | .error e => .error e
  | .ok m => .ok ⟨{ m with memory := tmpDir }⟩

/-- Modelled from the spec: PyCaret's `predict_model`, vendor code not in
this repository. Per the spec it scores the batch row by row, returning the
input columns, any further scorer output columns, and the two prediction
columns `prediction_label` and `prediction_score`, row-aligned 1:1 with the
input and in the same row order. -/
def predict_model (m : Model) (data : TabularBatch) : TabularBatch :=
  ⟨data.cols ++ m.extra data ++
    [⟨"prediction_label", data.rows.map (fun r => Value.text (m.label r))⟩,
     ⟨"prediction_score", data.rows.map (fun r => Value.float (m.score r))⟩]⟩

/-- `PyCaretModel.predict`: call the scorer on the batch and project the two
columns `prediction_label` and `prediction_score` into the result frame. -/
def PyCaretModel.predict (self : PyCaretModel) (X : TabularBatch) : TabularBatch :=
  let model_output := predict_model self.model X
  let res_df : TabularBatch :=
    ⟨[⟨"prediction_label", model_output.getCol "prediction_label"⟩,
      ⟨"prediction_score", model_output.getCol "prediction_score"⟩]⟩
  res_df

/-- One `predict` call as a step on the adapter state: the source's
`predict` writes no attribute of `self` or `self.model`, so the call
returns the output frame and leaves the adapter as it was. -/
def PyCaretModel.predictStep (self : PyCaretModel) (X : TabularBatch) :
    TabularBatch × PyCaretModel :=
  (self.predict X, self)

/-- Valid feature batches do not already use the two reserved prediction
column names (the registry drives `predict` with the signature's feature
columns). -/
def TabularBatch.freshNames (b : TabularBatch) : Prop :=
  ∀ c ∈ b.cols, c.name ≠ "prediction_label" ∧ c.name ≠ "prediction_score"

instance (b : TabularBatch) : Decidable b.freshNames :=
  inferInstanceAs (Decidable (∀ c ∈ b.cols, _ ∧ _))

/-- The closed set of primitive signature types. -/
inductive DataType where
  | INT64
  | DOUBLE
  | STRING
  | BOOL
  deriving Repr, DecidableEq

/-- One typed column of a signature: `FeatureSpec(dtype=..., name=...)`. -/
structure FeatureSpec where
  name : String
  dtype : DataType
  deriving Repr, DecidableEq

/-- A model signature: ordered typed input and output columns. -/
structure ModelSignature where
  inputs : List FeatureSpec
  outputs : List FeatureSpec
  deriving Repr, DecidableEq

/-- The signature inferencer's error, named as in the spec's taxonomy. -/
inductive SignatureError where
  | SignatureInferenceError
  deriving Repr, DecidableEq

def Value.isMissing : Value → Bool
  | .missing => true
  | _ => false

def Value.isNumeric : Value → Bool
  | .int _ => true
  | .float _ => true
  | _ => false

/-- A numeric value is whole when it has no fractional part. -/
def Value.isWhole : Value → Bool
  | .int _ => true
  | .float q => q.den == 1
  | _ => false

/-- Modelled from the spec: the per-column type classifier of
`model_signature.infer_signature`, vendor code not in this repository.
It inspects the sampled values themselves: a column whose present sample
is empty cannot be typed; a numeric column with a fractional value present
is DOUBLE; a numeric column of whole values is INT64; otherwise STRING. -/
def classifyValues (vs : List Value) : Except SignatureError DataType :=
  let present := vs.filter (fun v => !v.isMissing)
  if present.isEmpty then .error .SignatureInferenceError
  else if present.all Value.isNumeric then
    if present.all Value.isWhole then .ok .INT64 else .ok .DOUBLE
  else .ok .STRING

/-- Infer the typed spec of one sampled column. -/
def inferColumn (c : Column) : Except SignatureError FeatureSpec :=
  (classifyValues c.values).map (fun t => ⟨c.name, t⟩)

/-- Infer the typed specs of a list of sampled columns in order, propagating
the first failure. -/
def inferColumns : List Column → Except SignatureError (List FeatureSpec)
  | [] => .ok []
  | c :: cs =>
    match inferColumn c, inferColumns cs with
    | .error e, _ => .error e
    | .ok _, .error e => .error e
    | .ok f, .ok fs => .ok (f :: fs)

/-- Modelled from the spec: `model_signature.infer_signature`, vendor code
not in this repository. It types every input and output column from the
sampled values, in the column order of the sample batches. -/
def infer_signature (input_data output_data : TabularBatch) :
    Except SignatureError ModelSignature :=
  match inferColumns input_data.cols, inferColumns output_data.cols with
  | .error e, _ => .error e
  | .ok _, .error e => .error e
  | .ok ins, .ok outs => .ok ⟨ins, outs⟩

/-- A concrete scorer for concrete evaluations: the stub of the spec's
end-to-end scenario, always label "CH" with score 1/2, no extra columns. -/
def constModel : Model where
  memory := "/var/folders/pycaret-cache"
  label := fun _ => "CH"
  score := fun _ => 1/2
  extra := fun _ => []
  score_mem := by intro r; constructor <;> norm_num
  extra_names := by intro X c h; cases h

/-- A concrete ModelContext: the notebook's artifact map. -/
def ctx0 : ModelContext := ⟨[("model_file", "juice_best_model.pkl")]⟩

/-- A filesystem with no files. -/
def fsEmpty : FileSystem := ⟨[]⟩

/-- A filesystem holding a valid serialized model at the notebook's path. -/
def fsGood : FileSystem := ⟨[("juice_best_model.pkl", .modelBlob constModel)]⟩

/-- A filesystem holding an invalid blob at the notebook's path. -/
def fsBad : FileSystem := ⟨[("juice_best_model.pkl", .garbage "not a pickle")]⟩

/-- A small concrete aligned feature batch for concrete evaluations. -/
def sampleBatch : TabularBatch :=
  ⟨[⟨"Id", [.int 1, .int 2]⟩,
    ⟨"PriceCH", [.float (7/4), .float (7/4)]⟩,
    ⟨"Store7", [.text "No", .text "Yes"]⟩]⟩

/-- The concrete adapter built on the stub scorer. -/
def sampleAdapter : PyCaretModel := ⟨{ constModel with memory := tmpDir }⟩

theorem find_append_right {α : Type} (p : α → Bool) (l₁ l₂ : List α)
    (h : ∀ a ∈ l₁, p a = false) : (l₁ ++ l₂).find? p = l₂.find? p := by
  induction l₁ with
  | nil => rfl
  | cons a as ih =>
    have ha : p a = false := h a (List.mem_cons_self a as)
    rw [List.cons_append, List.find?_cons, ha]
    exact ih (fun b hb => h b (List.mem_cons_of_mem a hb))

theorem getCol_predict_model_label (m : Model) (X : TabularBatch)
    (h : X.freshNames) :
    (predict_model m X).getCol "prediction_label"
      = X.rows.map (fun r => Value.text (m.label r)) := by
  unfold predict_model TabularBatch.getCol
  dsimp only
  rw [List.append_assoc,
      find_append_right _ X.cols _
        (fun c hc => beq_eq_false_iff_ne.mpr (h c hc).1),
      find_append_right _ (m.extra X) _
        (fun c hc => beq_eq_false_iff_ne.mpr (m.extra_names X c hc).1)]
  rfl

theorem getCol_predict_model_score (m : Model) (X : TabularBatch)
    (h : X.freshNames) :
    (predict_model m X).getCol "prediction_score"
      = X.rows.map (fun r => Value.float (m.score r)) := by
  unfold predict_model TabularBatch.getCol
  dsimp only
  rw [List.append_assoc,
      find_append_right _ X.cols _
        (fun c hc => beq_eq_false_iff_ne.mpr (h c hc).2),
      find_append_right _ (m.extra X) _
        (fun c hc => beq_eq_false_iff_ne.mpr (m.extra_names X c hc).2)]
  rfl

theorem predict_eq (a : PyCaretModel) (X : TabularBatch) (h : X.freshNames) :
    a.predict X =
      ⟨[⟨"prediction_label", X.rows.map (fun r => Value.text (a.model.label r))⟩,
        ⟨"prediction_score", X.rows.map (fun r => Value.float (a.model.score r))⟩]⟩ := by
  unfold PyCaretModel.predict
  dsimp only
  rw [getCol_predict_model_label a.model X h, getCol_predict_model_score a.model X h]

theorem rows_length (X : TabularBatch) : X.rows.length = X.nrows := by
  simp [TabularBatch.rows]

theorem map_rows_getD (X : TabularBatch) (f : List Value → Value) (i : Nat)
    (hi : i < X.nrows) (d : Value) :
    (X.rows.map f).getD i d = f (X.row i) := by
  unfold TabularBatch.rows
  rw [List.map_map, List.getD_eq_getElem?_getD, List.getElem?_map,
      List.getElem?_range hi]
  rfl

theorem isMissing_false_of_isNumeric (v : Value) (h : v.isNumeric = true) :
    v.isMissing = false := by
  cases v <;> simp_all [Value.isNumeric, Value.isMissing]

theorem classify_numeric_fractional (vs : List Value) (hne : vs ≠ [])
    (hnum : ∀ v ∈ vs, v.isNumeric = true)
    (hfrac : ∃ v ∈ vs, v.isWhole = false) :
    classifyValues vs = .ok .DOUBLE := by
  unfold classifyValues
  have hpres : vs.filter (fun v => !v.isMissing) = vs :=
    List.filter_eq_self.mpr (fun v hv => by
      rw [isMissing_false_of_isNumeric v (hnum v hv)]; rfl)
  rw [hpres]
  obtain ⟨w, hw, hwf⟩ := hfrac
  rw [if_neg (by simpa [List.isEmpty_iff] using hne),
      if_pos (List.all_eq_true.mpr hnum),
      if_neg (by
        intro hall
        have := List.all_eq_true.mp hall w hw
        rw [hwf] at this
        exact Bool.false_ne_true this)]

theorem classify_numeric_whole (vs : List Value) (hne : vs ≠ [])
    (hnum : ∀ v ∈ vs, v.isNumeric = true)
    (hwhole : ∀ v ∈ vs, v.isWhole = true) :
    classifyValues vs = .ok .INT64 := by
  unfold classifyValues
  have hpres : vs.filter (fun v => !v.isMissing) = vs :=
    List.filter_eq_self.mpr (fun v hv => by
      rw [isMissing_false_of_isNumeric v (hnum v hv)]; rfl)
  rw [hpres]
  rw [if_neg (by simpa [List.isEmpty_iff] using hne),
      if_pos (List.all_eq_true.mpr hnum),
      if_pos (List.all_eq_true.mpr hwhole)]

theorem classify_nonnumeric (vs : List Value)
    (h : ∃ v ∈ vs, v.isNumeric = false ∧ v.isMissing = false) :
    classifyValues vs = .ok .STRING := by
  unfold classifyValues
  obtain ⟨w, hw, hwn, hwm⟩ := h
  have hwpres : w ∈ vs.filter (fun v => !v.isMissing) :=
    List.mem_filter.mpr ⟨hw, by rw [hwm]; rfl⟩
  rw [if_neg (by
        intro he
        rw [List.isEmpty_iff] at he
        rw [he] at hwpres
        exact List.not_mem_nil w hwpres),
      if_neg (by
        intro hall
        have := List.all_eq_true.mp hall w hwpres
        rw [hwn] at this
        exact Bool.false_ne_true this)]

theorem classify_untypeable (vs : List Value)
    (h : vs = [] ∨ ∀ v ∈ vs, v.isMissing = true) :
    classifyValues vs = .error .SignatureInferenceError := by
  unfold classifyValues
  have hpres : vs.filter (fun v => !v.isMissing) = [] := by
    cases h with
    | inl he => rw [he]; rfl
    | inr hm =>
      refine List.filter_eq_nil_iff.mpr (fun v hv => ?_)
      rw [hm v hv]
      simp
  rw [hpres]
  rfl

theorem inferColumns_error_of_mem (l : List Column) (c : Column) (hc : c ∈ l)
    (he : inferColumn c = .error .SignatureInferenceError) :
    inferColumns l = .error .SignatureInferenceError := by
  induction l with
  | nil => cases hc
  | cons a as ih =>
    unfold inferColumns
    rcases List.mem_cons.mp hc with h1 | h2
    · subst h1
      rw [he]
    · cases ha : inferColumn a with
      | error e => cases e; rfl
      | ok f => rw [ih h2]

/-- Claim C1: for every valid input TabularBatch with N rows, `predict`
returns a PredictionBatch with exactly N rows, row-aligned 1:1 with the
input and in the same row order: output row i is the scorer's label and
score for input row i. -/
theorem predict_row_aligned (a : PyCaretModel) (X : TabularBatch)
    (hal : X.aligned) (hf : X.freshNames) :
    (a.predict X).nrows = X.nrows ∧ (a.predict X).aligned ∧
    ∀ i, i < X.nrows →
      (a.predict X).row i =
        [Value.text (a.model.label (X.row i)),
         Value.float (a.model.score (X.row i))] := by
  rw [predict_eq a X hf]
  refine ⟨?_, ?_, ?_⟩
  · show (X.rows.map (fun r => Value.text (a.model.label r))).length = X.nrows
    rw [List.length_map, rows_length]
  · intro c hc
    show c.values.length = _
    rcases List.mem_cons.mp hc with h1 | h2
    · rw [h1]
      simp [TabularBatch.nrows]
    · rcases List.mem_cons.mp h2 with h3 | h4
      · rw [h3]
        simp [TabularBatch.nrows]
      · cases h4
  · intro i hi
    show List.map _ _ = _
    rw [List.map_cons, List.map_cons, List.map_nil]
    dsimp only
    rw [map_rows_getD X _ i hi, map_rows_getD X _ i hi]

/-- Witness for C1 at the stub adapter and a concrete 2-row batch. -/
theorem predict_row_aligned_witness :
    (sampleBatch.aligned ∧ sampleBatch.freshNames) ∧
    ((sampleAdapter.predict sampleBatch).nrows = sampleBatch.nrows ∧
     (sampleAdapter.predict sampleBatch).aligned ∧
     ∀ i, i < sampleBatch.nrows →
       (sampleAdapter.predict sampleBatch).row i =
         [Value.text (sampleAdapter.model.label (sampleBatch.row i)),
          Value.float (sampleAdapter.model.score (sampleBatch.row i))]) :=
  ⟨⟨by decide, by decide⟩,
   predict_row_aligned sampleAdapter sampleBatch (by decide) (by decide)⟩

/-- Claim C2: for every valid input batch, `predict` returns a batch with
exactly the two columns `prediction_label` (text) and `prediction_score`
(floating-point), discarding every other column the scorer produces, and
every score lies in [0, 1]. -/
theorem predict_two_columns (a : PyCaretModel) (X : TabularBatch)
    (hal : X.aligned) (hf : X.freshNames) :
    (a.predict X).cols.map Column.name = ["prediction_label", "prediction_score"] ∧
    (∀ v ∈ (a.predict X).getCol "prediction_label", ∃ s, v = Value.text s) ∧
    (∀ v ∈ (a.predict X).getCol "prediction_score",
       ∃ q, v = Value.float q ∧ 0 ≤ q ∧ q ≤ 1) := by
  rw [predict_eq a X hf]
  refine ⟨rfl, ?_, ?_⟩
  · intro v hv
    have hv' : v ∈ X.rows.map (fun r => Value.text (a.model.label r)) := by
      simpa [TabularBatch.getCol, List.find?] using hv
    obtain ⟨r, _, hr⟩ := List.mem_map.mp hv'
    exact ⟨a.model.label r, hr.symm⟩
  · intro v hv
    have hv' : v ∈ X.rows.map (fun r => Value.float (a.model.score r)) := by
      simpa [TabularBatch.getCol, List.find?] using hv
    obtain ⟨r, _, hr⟩ := List.mem_map.mp hv'
    exact ⟨a.model.score r, hr.symm, (a.model.score_mem r).1, (a.model.score_mem r).2⟩

/-- Witness for C2 at the stub adapter and a concrete 2-row batch. -/
theorem predict_two_columns_witness :
    (sampleBatch.aligned ∧ sampleBatch.freshNames) ∧
    ((sampleAdapter.predict sampleBatch).cols.map Column.name
        = ["prediction_label", "prediction_score"] ∧
     (∀ v ∈ (sampleAdapter.predict sampleBatch).getCol "prediction_label",
        ∃ s, v = Value.text s) ∧
     (∀ v ∈ (sampleAdapter.predict sampleBatch).getCol "prediction_score",
        ∃ q, v = Value.float q ∧ 0 ≤ q ∧ q ≤ 1)) :=
  ⟨⟨by decide, by decide⟩,
   predict_two_columns sampleAdapter sampleBatch (by decide) (by decide)⟩

/-- Claim C9: `predict` is idempotent in the absence of artifact state
mutation: a second `predict` call on the adapter state left by the first
call, with the same batch, yields an identical output batch. -/
theorem predict_idempotent (a : PyCaretModel) (X : TabularBatch) :
    ((a.predictStep X).2.predictStep X).1 = (a.predictStep X).1 := rfl

/-- Claim C3: the signature inferencer classifies each column from the
sampled values themselves: a numeric column with any fractional value
infers to DOUBLE, a numeric column of all whole values infers to INT64, a
column with a non-numeric (non-missing) value infers to STRING; in
particular [1, 2, 3] infers to integer, [1.0, 2.5, 3] to float, and
["No", "Yes"] to text. -/
theorem infer_types_from_values :
    (∀ c : Column, c.values ≠ [] → (∀ v ∈ c.values, v.isNumeric = true) →
       ((∃ v ∈ c.values, v.isWhole = false) →
          inferColumn c = .ok ⟨c.name, .DOUBLE⟩) ∧
       ((∀ v ∈ c.values, v.isWhole = true) →
          inferColumn c = .ok ⟨c.name, .INT64⟩)) ∧
    (∀ c : Column, (∃ v ∈ c.values, v.isNumeric = false ∧ v.isMissing = false) →
       inferColumn c = .ok ⟨c.name, .STRING⟩) ∧
    inferColumn ⟨"Id", [.int 1, .int 2, .int 3]⟩ = .ok ⟨"Id", .INT64⟩ ∧
    inferColumn ⟨"PriceCH", [.float (Rat.mk' 1 1), .float (Rat.mk' 5 2), .int 3]⟩
      = .ok ⟨"PriceCH", .DOUBLE⟩ ∧
    inferColumn ⟨"Store7", [.text "No", .text "Yes"]⟩ = .ok ⟨"Store7", .STRING⟩ := by
  refine ⟨?_, ?_, rfl, rfl, rfl⟩
  · intro c hne hnum
    constructor
    · intro hfrac
      unfold inferColumn
      rw [classify_numeric_fractional c.values hne hnum hfrac]
      rfl
    · intro hwhole
      unfold inferColumn
      rw [classify_numeric_whole c.values hne hnum hwhole]
      rfl
  · intro c hnn
    unfold inferColumn
    rw [classify_nonnumeric c.values hnn]
    rfl

/-- Witness for C3 at a concrete whole-valued numeric column. -/
theorem infer_types_from_values_witness :
    ((Column.mk "STORE" [.int 1, .int 0]).values ≠ [] ∧
     (∀ v ∈ (Column.mk "STORE" [.int 1, .int 0]).values, v.isNumeric = true) ∧
     (∀ v ∈ (Column.mk "STORE" [.int 1, .int 0]).values, v.isWhole = true)) ∧
    inferColumn ⟨"STORE", [.int 1, .int 0]⟩ = .ok ⟨"STORE", .INT64⟩ :=
  ⟨⟨by decide, by decide, by decide⟩,
   (infer_types_from_values.1 ⟨"STORE", [.int 1, .int 0]⟩
      (by decide) (by decide)).2 (by decide)⟩

/-- Claim C7: signature inference is deterministic: two calls on the same
sample input/output pair yield identical Signatures (the embedded
computation is pure, so it also leaves the sample batches unchanged). -/
theorem infer_deterministic (i1 o1 i2 o2 : TabularBatch)
    (hi : i1 = i2) (ho : o1 = o2) :
    infer_signature i1 o1 = infer_signature i2 o2 := by
  subst hi
  subst ho
  rfl

/-- Witness for C7 at a concrete sample pair. -/
theorem infer_deterministic_witness :
    (sampleBatch = sampleBatch) ∧
    infer_signature sampleBatch sampleBatch
      = infer_signature sampleBatch sampleBatch :=
  ⟨rfl, infer_deterministic sampleBatch sampleBatch sampleBatch sampleBatch rfl rfl⟩

/-- Claim C8: a sample batch containing a column with zero sampled rows, or
whose sampled values are all missing, makes the signature inferencer fail
with SignatureInferenceError rather than assigning a guessed type. -/
theorem infer_untypeable_errors (input_data output_data : TabularBatch)
    (c : Column) (hc : c ∈ input_data.cols ∨ c ∈ output_data.cols)
    (hbad : c.values = [] ∨ ∀ v ∈ c.values, v.isMissing = true) :
    infer_signature input_data output_data
      = .error .SignatureInferenceError := by
  have hcol : inferColumn c = .error .SignatureInferenceError := by
    unfold inferColumn
    rw [classify_untypeable c.values hbad]
    rfl
  unfold infer_signature
  cases hc with
  | inl hin =>
    rw [inferColumns_error_of_mem input_data.cols c hin hcol]
  | inr hout =>
    cases hins : inferColumns input_data.cols with
    | error e => cases e; rfl
    | ok ins =>
      rw [inferColumns_error_of_mem output_data.cols c hout hcol]

/-- Witness for C8 at a batch whose first column has zero sampled rows. -/
theorem infer_untypeable_errors_witness :
    ((Column.mk "Id" [] ∈ (TabularBatch.mk [⟨"Id", []⟩]).cols ∨
      Column.mk "Id" [] ∈ sampleBatch.cols) ∧
     ((Column.mk "Id" ([] : List Value)).values = [] ∨
      ∀ v ∈ (Column.mk "Id" ([] : List Value)).values, v.isMissing = true)) ∧
    infer_signature ⟨[⟨"Id", []⟩]⟩ sampleBatch
      = .error .SignatureInferenceError :=
  ⟨⟨Or.inl (by decide), Or.inl rfl⟩,
   infer_untypeable_errors ⟨[⟨"Id", []⟩]⟩ sampleBatch ⟨"Id", []⟩
     (Or.inl (by decide)) (Or.inl rfl)⟩

theorem pySliceToNeg4_append_four (s t : String) (h : t.data.length = 4) :
    pySliceToNeg4 (s ++ t) = s := by
  unfold pySliceToNeg4
  have hdata : (s ++ t).data = s.data ++ t.data := rfl
  rw [hdata]
  have hlen : (s.data ++ t.data).length - 4 = s.data.length := by
    simp [List.length_append, h]
  rw [hlen, List.take_left]

theorem pySliceToNeg4_short (s : String) (h : s.data.length < 4) :
    pySliceToNeg4 s = "" := by
  unfold pySliceToNeg4
  have h0 : s.data.length - 4 = 0 := Nat.sub_eq_zero_of_le (Nat.le_of_lt h)
  rw [h0, List.take_zero]

theorem path_single (p : String) :
    (ModelContext.mk [("model_file", p)]).path "model_file" = p := rfl

/-- Claim C4: adapter construction fails with ArtifactNotFound when the
resolved artifact path does not exist on the filesystem, fails with
ArtifactLoadError when the blob there is not a valid serialized artifact,
and on success returns an adapter owning the deserialized model (with its
cache directory patched). -/
theorem construct_error_taxonomy (fs : FileSystem) (ctx : ModelContext) :
    (fs.files.lookup (resolveModelDir ctx ++ ".pkl") = none →
       PyCaretModel.construct fs ctx = .error .ArtifactNotFound) ∧
    (∀ s, fs.files.lookup (resolveModelDir ctx ++ ".pkl") = some (.garbage s) →
       PyCaretModel.construct fs ctx = .error .ArtifactLoadError) ∧
    (∀ m, fs.files.lookup (resolveModelDir ctx ++ ".pkl") = some (.modelBlob m) →
       PyCaretModel.construct fs ctx = .ok ⟨{ m with memory := tmpDir }⟩) := by
  refine ⟨?_, ?_, ?_⟩
  · intro h
    unfold PyCaretModel.construct load_model
    rw [h]
  · intro s h
    unfold PyCaretModel.construct load_model
    rw [h]
  · intro m h
    unfold PyCaretModel.construct load_model
    rw [h]

/-- Witness for C4: the three construction outcomes at concrete filesystems. -/
theorem construct_error_taxonomy_witness :
    (fsEmpty.files.lookup (resolveModelDir ctx0 ++ ".pkl") = none ∧
     PyCaretModel.construct fsEmpty ctx0 = .error .ArtifactNotFound) ∧
    (fsBad.files.lookup (resolveModelDir ctx0 ++ ".pkl")
        = some (.garbage "not a pickle") ∧
     PyCaretModel.construct fsBad ctx0 = .error .ArtifactLoadError) ∧
    (fsGood.files.lookup (resolveModelDir ctx0 ++ ".pkl")
        = some (.modelBlob constModel) ∧
     PyCaretModel.construct fsGood ctx0
        = .ok ⟨{ constModel with memory := tmpDir }⟩) :=
  ⟨⟨rfl, (construct_error_taxonomy fsEmpty ctx0).1 rfl⟩,
   ⟨rfl, (construct_error_taxonomy fsBad ctx0).2.1 "not a pickle" rfl⟩,
   ⟨rfl, (construct_error_taxonomy fsGood ctx0).2.2 constModel rfl⟩⟩

theorem foldl_predictStep (a : PyCaretModel) (bs : List TabularBatch) :
    bs.foldl (fun st X => (st.predictStep X).2) a = a := by
  induction bs generalizing a with
  | nil => rfl
  | cons b bs ih => exact ih a

/-- Claim C5: construction sets the artifact's cache-directory field to the
scratch path "/tmp/", and no sequence of predict calls ever changes it. -/
theorem memory_set_once (fs : FileSystem) (ctx : ModelContext)
    (a : PyCaretModel) (h : PyCaretModel.construct fs ctx = .ok a) :
    a.model.memory = tmpDir ∧
    ∀ bs : List TabularBatch,
      (bs.foldl (fun st X => (st.predictStep X).2) a).model.memory = tmpDir := by
  have hmem : a.model.memory = tmpDir := by
    unfold PyCaretModel.construct at h
    cases hl : load_model fs (resolveModelDir ctx) with
    | error e => rw [hl] at h; cases h
    | ok m =>
      rw [hl] at h
      injection h with h1
      rw [← h1]
  exact ⟨hmem, fun bs => by rw [foldl_predictStep]; exact hmem⟩

/-- Witness for C5 at the concrete good filesystem and a one-batch run. -/
theorem memory_set_once_witness :
    PyCaretModel.construct fsGood ctx0 = .ok sampleAdapter ∧
    sampleAdapter.model.memory = tmpDir ∧
    (([sampleBatch] : List TabularBatch).foldl
        (fun st X => (st.predictStep X).2) sampleAdapter).model.memory = tmpDir :=
  ⟨rfl,
   (memory_set_once fsGood ctx0 sampleAdapter rfl).1,
   (memory_set_once fsGood ctx0 sampleAdapter rfl).2 [sampleBatch]⟩

/-- Claim C6: the artifact locator resolves the configured artifact path and
strips the registry-imposed 4-character ".pkl" suffix, a one-shot
deterministic computation. -/
theorem locator_strips_suffix :
    (∀ p : String, resolveModelDir ⟨[("model_file", p)]⟩ = pySliceToNeg4 p) ∧
    (∀ stem : String, resolveModelDir ⟨[("model_file", stem ++ ".pkl")]⟩ = stem) ∧
    (∀ ctx : ModelContext, resolveModelDir ctx = resolveModelDir ctx) := by
  refine ⟨fun p => ?_, fun stem => ?_, fun ctx => rfl⟩
  · unfold resolveModelDir
    rw [path_single]
  · unfold resolveModelDir
    rw [path_single]
    exact pySliceToNeg4_append_four stem ".pkl" rfl

/-- Claim C10: the resolved path's last four characters are removed
unconditionally — also when the path has a different extension — the slice
is total, and a path shorter than four characters yields the empty string. -/
theorem slice_unconditional :
    (∀ stem : String, resolveModelDir ⟨[("model_file", stem ++ ".tar")]⟩ = stem) ∧
    (∀ p : String, p.data.length < 4 →
       resolveModelDir ⟨[("model_file", p)]⟩ = "") ∧
    (∀ p : String, ∃ t : String, t.data.length = min 4 p.data.length ∧
       pySliceToNeg4 p ++ t = p) := by
  refine ⟨fun stem => ?_, fun p hp => ?_, fun p => ?_⟩
  · unfold resolveModelDir
    rw [path_single]
    exact pySliceToNeg4_append_four stem ".tar" rfl
  · unfold resolveModelDir
    rw [path_single]
    exact pySliceToNeg4_short p hp
  · refine ⟨String.mk (p.data.drop (p.data.length - 4)), ?_, ?_⟩
    · show (p.data.drop (p.data.length - 4)).length = min 4 p.data.length
      rw [List.length_drop]
      omega
    · show String.mk (p.data.take (p.data.length - 4))
            ++ String.mk (p.data.drop (p.data.length - 4)) = p
      have hmk : String.mk (p.data.take (p.data.length - 4))
            ++ String.mk (p.data.drop (p.data.length - 4))
          = String.mk (p.data.take (p.data.length - 4)
              ++ p.data.drop (p.data.length - 4)) := rfl
      rw [hmk, List.take_append_drop]

/-- Witness for C10 at a 2-character path. -/
theorem slice_unconditional_witness :
    ("ab" : String).data.length < 4 ∧
    resolveModelDir ⟨[("model_file", "ab")]⟩ = "" :=
  ⟨by decide, slice_unconditional.2.1 "ab" (by decide)⟩
